import Mathlib

/-!
Verification of the OpenRelik VS Code extension lifecycle core
(`src/extension.ts`): the health checker `checkHealth`, the availability
waiter `waitForOpenRelik`, and the lifecycle commands `startOpenRelik`,
`stopOpenRelik`, `newWorker`, together with a trace semantics over the
process-wide mutable state (`dockerComposeStatus`, `workerTerminals`,
the window terminal list).
-/

namespace OpenRelik

/-- The process-wide platform status (`dockerComposeStatus` in
`extension.ts`), initialised to `stopped`. -/
inductive DockerComposeStatus
  | running
  | stopped
  | unknown
deriving DecidableEq, Repr

/-- The response object returned by a successful `fetch`; the extension only
consults the HTTP status code (via `response.ok`). -/
structure Response where
  status : Nat
deriving DecidableEq, Repr

/-- Model of `response.ok` of the Fetch API: the status code lies in
200–299. -/
def Response.ok (r : Response) : Bool := 200 ≤ r.status && r.status ≤ 299

/-- The exceptions `fetch` can throw, as discriminated by the `catch` block
of `checkHealth`: an abort fired by the probe timeout, a refused connection,
or any other transport error. -/
inductive FetchError
  | abortError
  | connRefused
  | other (msg : String)
deriving DecidableEq, Repr

/-- The `try` body of `checkHealth`: a thrown `fetch` error propagates;
otherwise the response is classified by `response.ok`, and the new value of
the global status is recorded alongside the returned boolean. -/
def checkHealthTry (fetchOutcome : Except FetchError Response) :
    Except FetchError (Bool × DockerComposeStatus) :=
  match fetchOutcome with
  | Except.error e => Except.error e
  | Except.ok response =>
      if response.ok then Except.ok (true, DockerComposeStatus.running)
      else Except.ok (false, DockerComposeStatus.unknown)

/-- Function `checkHealth` (`extension.ts`): the `try` body wrapped in the `catch`
that turns every thrown error (timeout `AbortError`, `ECONNREFUSED`, or any
other) into the result `false` with global status `unknown`. The total
return type `Bool × DockerComposeStatus` reflects that no error escapes to
the caller. -/
def checkHealth (fetchOutcome : Except FetchError Response) :
    Bool × DockerComposeStatus :=
  match checkHealthTry fetchOutcome with
  | Except.ok result => result
  | Except.error _ => (false, DockerComposeStatus.unknown)

theorem checkHealth_fst_false (o : Except FetchError Response)
    (h : (checkHealth o).fst = false) :
    (checkHealth o).snd = DockerComposeStatus.unknown := by
  cases o with
  | error e => rfl
  | ok r =>
      by_cases hr : r.ok
      · simp [checkHealth, checkHealthTry, hr] at h
      · simp [checkHealth, checkHealthTry, hr]

theorem checkHealth_fst_true (o : Except FetchError Response)
    (h : (checkHealth o).fst = true) :
    (checkHealth o).snd = DockerComposeStatus.running := by
  cases o with
  | error e => simp [checkHealth, checkHealthTry] at h
  | ok r =>
      by_cases hr : r.ok
      · simp [checkHealth, checkHealthTry, hr]
      · simp [checkHealth, checkHealthTry, hr] at h

/-- C1: a 2xx response makes `checkHealth` return `true` (Healthy) with
global status `running`; every other response status makes it return `false`
(Unhealthy) with status `unknown`; every thrown transport error (timeout,
connection refused, any other) likewise yields `false` and `unknown`; and
every possible outcome yields one of these two results, so no error ever
reaches the caller. -/
theorem checkHealth_classification :
    (∀ r : Response, 200 ≤ r.status → r.status ≤ 299 →
      checkHealth (Except.ok r) = (true, DockerComposeStatus.running))
    ∧ (∀ r : Response, r.status < 200 ∨ 299 < r.status →
      checkHealth (Except.ok r) = (false, DockerComposeStatus.unknown))
    ∧ (∀ e : FetchError,
      checkHealth (Except.error e) = (false, DockerComposeStatus.unknown))
    ∧ (∀ o : Except FetchError Response,
      checkHealth o = (true, DockerComposeStatus.running)
        ∨ checkHealth o = (false, DockerComposeStatus.unknown)) := by
  refine ⟨?_, ?_, ?_, ?_⟩
  · intro r h1 h2
    have hok : r.ok = true := by
      simp [Response.ok]
      omega
    simp [checkHealth, checkHealthTry, hok]
  · intro r h
    have hok : r.ok = false := by
      simp [Response.ok]
      omega
    simp [checkHealth, checkHealthTry, hok]
  · intro e
    rfl
  · intro o
    cases o with
    | error e => exact Or.inr rfl
    | ok r =>
        by_cases hr : r.ok
        · exact Or.inl (by simp [checkHealth, checkHealthTry, hr])
        · exact Or.inr (by simp [checkHealth, checkHealthTry, hr])

/-- Concrete instances of `checkHealth_classification`: a 204 response, a
503 response, a timeout and a refused connection. -/
theorem checkHealth_classification_witness :
    checkHealth (Except.ok ⟨204⟩) = (true, DockerComposeStatus.running)
    ∧ checkHealth (Except.ok ⟨503⟩) = (false, DockerComposeStatus.unknown)
    ∧ checkHealth (Except.error FetchError.abortError)
        = (false, DockerComposeStatus.unknown)
    ∧ checkHealth (Except.error FetchError.connRefused)
        = (false, DockerComposeStatus.unknown) :=
  ⟨checkHealth_classification.1 ⟨204⟩ (by decide) (by decide),
   checkHealth_classification.2.1 ⟨503⟩ (Or.inr (by decide)),
   checkHealth_classification.2.2.1 FetchError.abortError,
   checkHealth_classification.2.2.1 FetchError.connRefused⟩

/-- The user-visible notifications the extension emits:
`showInformationMessage`, `showWarningMessage`, `showErrorMessage` and
`setStatusBarMessage` (carrying the message and its display duration). -/
inductive Notification
  | info (msg : String)
  | warning (msg : String)
  | error (msg : String)
  | statusBar (msg : String) (durationMs : Nat)
deriving DecidableEq, Repr

def Notification.isInfo : Notification → Bool
  | Notification.info _ => true
  | _ => false

def Notification.isError : Notification → Bool
  | Notification.error _ => true
  | _ => false

def Notification.isStatusBar : Notification → Bool
  | Notification.statusBar _ _ => true
  | _ => false

/-- Success message of `waitForOpenRelik`. -/
def availableMsg (url : String) : String :=
  s!"OpenRelik at {url} is now available!"

/-- Progress message shown in the status bar on each failed attempt. -/
def waitingMsg (url : String) (attempt maxRetries : Nat) : String :=
  s!"Waiting for server at {url}... ({attempt}/{maxRetries})"

/-- Failure message after the retry budget is exhausted. -/
def unavailableMsg (url : String) (maxRetries : Nat) : String :=
  s!"OpenRelik at {url} did not become available after {maxRetries} attempts."

/-- The sequence of status-bar progress notifications for attempts
`lo + 1, …, lo + n` out of `maxRetries`. -/
def progressMsgs (url : String) (maxRetries retryInterval lo : Nat) :
    Nat → List Notification
  | 0 => []
  | n + 1 =>
      Notification.statusBar (waitingMsg url (lo + 1) maxRetries) retryInterval
        :: progressMsgs url maxRetries retryInterval (lo + 1) n

/-- Result of one `waitForOpenRelik` run: the returned boolean, the number
of `checkHealth` invocations, the number of inter-retry suspensions
(`setTimeout` waits), the final global status, and the notifications emitted
in order. -/
structure WaitResult where
  result : Bool
  probes : Nat
  sleeps : Nat
  status : DockerComposeStatus
  notifs : List Notification
deriving DecidableEq, Repr

/-- The `while (retryCount < maxRetries)` loop of `waitForOpenRelik`,
written with `fuel = maxRetries - retryCount` as the decreasing argument.
The probe outcome of the `n`-th `checkHealth` invocation (0-based) is
`env n`; every iteration overwrites the global status with the status
assigned by `checkHealth`. On a healthy probe the success message is shown
and the loop returns `true` at once; on an unhealthy probe `retryCount` is
incremented, the progress message for `retryCount/maxRetries` is shown, the
loop suspends for `retryInterval`, and retries. When the budget is
exhausted the failure message is shown and the loop returns `false`. -/
def waitLoop (env : Nat → Except FetchError Response) (url : String)
    (maxRetries retryInterval : Nat) :
    Nat → Nat → DockerComposeStatus → List Notification → WaitResult
  | 0, retryCount, status, notifs =>
      ⟨false, retryCount, retryCount, status,
        notifs ++ [Notification.error (unavailableMsg url maxRetries)]⟩
  | fuel + 1, retryCount, _status, notifs =>
      if (checkHealth (env retryCount)).fst then
        ⟨true, retryCount + 1, retryCount, (checkHealth (env retryCount)).snd,
          notifs ++ [Notification.info (availableMsg url)]⟩
      else
        waitLoop env url maxRetries retryInterval fuel (retryCount + 1)
          (checkHealth (env retryCount)).snd
          (notifs ++ [Notification.statusBar
            (waitingMsg url (retryCount + 1) maxRetries) retryInterval])

/-- Function `waitForOpenRelik` (`extension.ts`): run the retry loop from
`retryCount = 0` with an empty notification log, starting from the current
global status. -/
def waitForOpenRelik (env : Nat → Except FetchError Response) (url : String)
    (maxRetries retryInterval : Nat) (status : DockerComposeStatus) :
    WaitResult :=
  waitLoop env url maxRetries retryInterval maxRetries 0 status []

theorem progressMsgs_all_statusBar (url : String)
    (maxRetries retryInterval : Nat) :
    ∀ n lo, ∀ x ∈ progressMsgs url maxRetries retryInterval lo n,
      x.isStatusBar = true := by
  intro n
  induction n with
  | zero => intro lo x hx; simp [progressMsgs] at hx
  | succ m ih =>
      intro lo x hx
      simp only [progressMsgs, List.mem_cons] at hx
      rcases hx with h | h
      · subst h; rfl
      · exact ih (lo + 1) x h

theorem progressMsgs_length (url : String) (maxRetries retryInterval : Nat) :
    ∀ n lo, (progressMsgs url maxRetries retryInterval lo n).length = n := by
  intro n
  induction n with
  | zero => intro lo; rfl
  | succ m ih => intro lo; simp [progressMsgs, ih (lo + 1)]

/-- If the probes with 0-based indices `retryCount, …, c - 1` are unhealthy
and probe `c` is healthy, the loop stops at probe `c` with the success
notification appended after the progress messages for the failed attempts. -/
theorem waitLoop_first_healthy (env : Nat → Except FetchError Response)
    (url : String) (maxRetries retryInterval : Nat) (c : Nat) :
    ∀ fuel retryCount status notifs, retryCount ≤ c → c < retryCount + fuel →
    (∀ i, retryCount ≤ i → i < c → (checkHealth (env i)).fst = false) →
    (checkHealth (env c)).fst = true →
    waitLoop env url maxRetries retryInterval fuel retryCount status notifs =
      ⟨true, c + 1, c, DockerComposeStatus.running,
        notifs
          ++ progressMsgs url maxRetries retryInterval retryCount (c - retryCount)
          ++ [Notification.info (availableMsg url)]⟩ := by
  intro fuel
  induction fuel with
  | zero => intro retryCount status notifs hle hlt hmiss hhit; omega
  | succ m ih =>
      intro retryCount status notifs hle hlt hmiss hhit
      by_cases hrc : retryCount = c
      · subst hrc
        simp [waitLoop, hhit, checkHealth_fst_true _ hhit, progressMsgs]
      · have hlt2 : retryCount < c := lt_of_le_of_ne hle hrc
        have hmiss0 : (checkHealth (env retryCount)).fst = false :=
          hmiss retryCount le_rfl hlt2
        have hstep := ih (retryCount + 1) (checkHealth (env retryCount)).snd
          (notifs ++ [Notification.statusBar
            (waitingMsg url (retryCount + 1) maxRetries) retryInterval])
          (by omega) (by omega)
          (fun i h1 h2 => hmiss i (by omega) h2) hhit
        have hsub : c - retryCount = (c - (retryCount + 1)) + 1 := by omega
        simp only [waitLoop, hmiss0, Bool.false_eq_true, if_false, hstep,
          hsub, progressMsgs, List.append_assoc, List.cons_append,
          List.nil_append]

/-- If every probe in the budget is unhealthy, the loop exhausts the budget,
returning `false` after `fuel` probes, with one progress message per attempt
followed by the failure notification. -/
theorem waitLoop_all_unhealthy (env : Nat → Except FetchError Response)
    (url : String) (maxRetries retryInterval : Nat) :
    ∀ fuel retryCount status notifs,
    (∀ i, retryCount ≤ i → i < retryCount + fuel →
      (checkHealth (env i)).fst = false) →
    waitLoop env url maxRetries retryInterval fuel retryCount status notifs =
      ⟨false, retryCount + fuel, retryCount + fuel,
        (if fuel = 0 then status else DockerComposeStatus.unknown),
        notifs ++ progressMsgs url maxRetries retryInterval retryCount fuel
          ++ [Notification.error (unavailableMsg url maxRetries)]⟩ := by
  intro fuel
  induction fuel with
  | zero => intro retryCount status notifs hmiss; simp [waitLoop, progressMsgs]
  | succ m ih =>
      intro retryCount status notifs hmiss
      have hmiss0 : (checkHealth (env retryCount)).fst = false :=
        hmiss retryCount le_rfl (by omega)
      have hstep := ih (retryCount + 1) (checkHealth (env retryCount)).snd
        (notifs ++ [Notification.statusBar
          (waitingMsg url (retryCount + 1) maxRetries) retryInterval])
        (fun i h1 h2 => hmiss i (by omega) (by omega))
      have harith : retryCount + 1 + m = retryCount + (m + 1) := by omega
      by_cases hm : m = 0
      · subst hm
        simp only [waitLoop, hmiss0, Bool.false_eq_true, if_false, hstep]
        simp [progressMsgs, checkHealth_fst_false _ hmiss0]
      · simp only [waitLoop, hmiss0, Bool.false_eq_true, if_false, hstep,
          harith, hm, if_false, if_neg (by omega : ¬ m + 1 = 0)]
        simp [progressMsgs, List.append_assoc]

theorem progressMsgs_filter_isInfo (url : String)
    (maxRetries retryInterval : Nat) :
    ∀ n lo, (progressMsgs url maxRetries retryInterval lo n).filter
      Notification.isInfo = [] := by
  intro n
  induction n with
  | zero => intro lo; rfl
  | succ m ih =>
      intro lo
      simp [progressMsgs, Notification.isInfo, ih (lo + 1)]

theorem progressMsgs_filter_isStatusBar (url : String)
    (maxRetries retryInterval : Nat) :
    ∀ n lo, (progressMsgs url maxRetries retryInterval lo n).filter
      Notification.isStatusBar = progressMsgs url maxRetries retryInterval lo n := by
  intro n
  induction n with
  | zero => intro lo; rfl
  | succ m ih =>
      intro lo
      simp [progressMsgs, Notification.isStatusBar, ih (lo + 1)]

/-- C2: when the `k`-th probe (`k ≤ maxRetries`) is the first healthy one,
`waitForOpenRelik` returns `true` after exactly `k` probe invocations,
emits exactly one success (information) notification, and performs no
further waiting: only the `k - 1` suspensions that preceded the successful
probe. -/
theorem waitForOpenRelik_success_at_k (env : Nat → Except FetchError Response)
    (url : String) (maxRetries retryInterval k : Nat)
    (status : DockerComposeStatus) (hk : 1 ≤ k) (hkm : k ≤ maxRetries)
    (hmiss : ∀ i, i + 1 < k → (checkHealth (env i)).fst = false)
    (hhit : (checkHealth (env (k - 1))).fst = true) :
    (waitForOpenRelik env url maxRetries retryInterval status).result = true
    ∧ (waitForOpenRelik env url maxRetries retryInterval status).probes = k
    ∧ ((waitForOpenRelik env url maxRetries retryInterval status).notifs.filter
        Notification.isInfo).length = 1
    ∧ (waitForOpenRelik env url maxRetries retryInterval status).sleeps = k - 1 := by
  have h := waitLoop_first_healthy env url maxRetries retryInterval (k - 1)
    maxRetries 0 status [] (by omega) (by omega)
    (fun i h1 h2 => hmiss i (by omega)) hhit
  unfold waitForOpenRelik
  rw [h]
  refine ⟨rfl, ?_, ?_, rfl⟩
  · show k - 1 + 1 = k
    omega
  · simp [List.filter_append, progressMsgs_filter_isInfo, Notification.isInfo]

/-- Instance of `waitForOpenRelik_success_at_k`: `maxRetries = 3` and a
probe stub healthy on the 2nd call give `true` after exactly 2 probes. -/
theorem waitForOpenRelik_success_at_k_witness :
    (waitForOpenRelik
      (fun i => if i = 0 then Except.error FetchError.connRefused
        else Except.ok ⟨200⟩)
      "http://localhost:8711" 3 0 DockerComposeStatus.unknown).result = true
    ∧ (waitForOpenRelik
      (fun i => if i = 0 then Except.error FetchError.connRefused
        else Except.ok ⟨200⟩)
      "http://localhost:8711" 3 0 DockerComposeStatus.unknown).probes = 2 := by
  have h := waitForOpenRelik_success_at_k
    (fun i => if i = 0 then Except.error FetchError.connRefused
      else Except.ok ⟨200⟩)
    "http://localhost:8711" 3 0 2 DockerComposeStatus.unknown
    (by decide) (by decide)
    (by
      intro i hi
      have h0 : i = 0 := Nat.lt_one_iff.mp (Nat.lt_of_succ_lt_succ hi)
      subst h0
      rfl)
    (by rfl)
  exact ⟨h.1, h.2.1⟩

/-- C3: with a probe stub that is always unhealthy and `maxRetries = 3`,
`waitForOpenRelik` returns `false` after exactly 3 probe invocations,
emitting exactly the 3 status-bar progress notifications `1/3`, `2/3`,
`3/3` followed by exactly 1 failure (error) notification. -/
theorem waitForOpenRelik_exhausts_retries
    (env : Nat → Except FetchError Response) (url : String)
    (retryInterval : Nat) (status : DockerComposeStatus)
    (hmiss : ∀ i, (checkHealth (env i)).fst = false) :
    (waitForOpenRelik env url 3 retryInterval status).result = false
    ∧ (waitForOpenRelik env url 3 retryInterval status).probes = 3
    ∧ (waitForOpenRelik env url 3 retryInterval status).notifs =
        [Notification.statusBar (waitingMsg url 1 3) retryInterval,
         Notification.statusBar (waitingMsg url 2 3) retryInterval,
         Notification.statusBar (waitingMsg url 3 3) retryInterval,
         Notification.error (unavailableMsg url 3)]
    ∧ ((waitForOpenRelik env url 3 retryInterval status).notifs.filter
        Notification.isStatusBar).length = 3
    ∧ ((waitForOpenRelik env url 3 retryInterval status).notifs.filter
        Notification.isError).length = 1 := by
  have h := waitLoop_all_unhealthy env url 3 retryInterval 3 0 status []
    (fun i h1 h2 => hmiss i)
  unfold waitForOpenRelik
  rw [h]
  refine ⟨rfl, rfl, ?_, ?_, ?_⟩
  · simp [progressMsgs]
  · simp [progressMsgs, Notification.isStatusBar]
  · simp [progressMsgs, Notification.isError, Notification.isStatusBar]

/-- Instance of `waitForOpenRelik_exhausts_retries` with a stub whose every
probe hits a refused connection. -/
theorem waitForOpenRelik_exhausts_retries_witness :
    (waitForOpenRelik (fun _ => Except.error FetchError.connRefused)
      "http://localhost:8711" 3 0 DockerComposeStatus.stopped).result = false
    ∧ (waitForOpenRelik (fun _ => Except.error FetchError.connRefused)
      "http://localhost:8711" 3 0 DockerComposeStatus.stopped).probes = 3 := by
  have h := waitForOpenRelik_exhausts_retries
    (fun _ => Except.error FetchError.connRefused)
    "http://localhost:8711" 0 DockerComposeStatus.stopped (fun i => rfl)
  exact ⟨h.1, h.2.1⟩

/-- A VS Code terminal (a session): an identity unique per creation and the
name it was created with. -/
structure Terminal where
  id : Nat
  name : String
deriving DecidableEq, Repr

/-- The mutable state of the extension host visible to the lifecycle
commands: the global `dockerComposeStatus`, the `workerTerminals` array, the
window's live terminal list (`vscode.window.terminals`), a counter providing
fresh terminal identities, the log of commands sent to terminals
(`sendText`), the identities of disposed terminals, the notifications shown,
and the number of health probes performed. -/
structure ExtState where
  dockerComposeStatus : DockerComposeStatus
  workerTerminals : List Terminal
  liveTerminals : List Terminal
  nextId : Nat
  sent : List (Nat × String)
  disposed : List Nat
  notifs : List Notification
  probes : Nat
deriving DecidableEq, Repr

/-- The state at process start: status `stopped`, no worker terminals, no
live terminals, nothing sent, disposed or shown. -/
def initState : ExtState :=
  ⟨DockerComposeStatus.stopped, [], [], 0, [], [], [], 0⟩

/-- Model of `vscode.window.createTerminal(name)`: a fresh terminal appended
to the window's terminal list. -/
def createTerminal (name : String) (s : ExtState) : Terminal × ExtState :=
  let t : Terminal := ⟨s.nextId, name⟩
  (t, { s with liveTerminals := s.liveTerminals ++ [t], nextId := s.nextId + 1 })

/-- Model of `terminal.dispose()`: the terminal leaves the window's live list and its
identity is recorded as disposed (a no-op on an already-absent terminal). -/
def disposeTerminal (t : Terminal) (s : ExtState) : ExtState :=
  { s with
    liveTerminals := s.liveTerminals.filter (fun u => u.id != t.id),
    disposed := s.disposed ++ [t.id] }

/-- Model of `terminal.sendText(cmd)`: the command string is recorded against the
terminal's identity. -/
def sendText (t : Terminal) (cmd : String) (s : ExtState) : ExtState :=
  { s with sent := s.sent ++ [(t.id, cmd)] }

/-- Appending a notification to the log (any of the `vscode.window.show*`
calls or `setStatusBarMessage`). -/
def notify (n : Notification) (s : ExtState) : ExtState :=
  { s with notifs := s.notifs ++ [n] }

/-- Function `getTerminal(name)` (`extension.ts`): scan `vscode.window.terminals` for
a terminal with the given name. -/
def getTerminal (name : String) (s : ExtState) : Option Terminal :=
  s.liveTerminals.find? (fun t => t.name == name)

/-- The `for (const term of workerTerminals) term.dispose()` loops of
`stopOpenRelik` and `newWorker`. -/
def disposeAll (l : List Terminal) (s : ExtState) : ExtState :=
  l.foldl (fun acc t => disposeTerminal t acc) s

/-- JavaScript truthiness of the `showInputBox` result: `undefined`
(cancelled) and the empty string are falsy. -/
def inputTruthy : Option String → Bool
  | none => false
  | some u => !(u == "")

/-- JavaScript template-string interpolation of a possibly-`undefined`
workspace root: `undefined` prints as the string `"undefined"`. -/
def wsString : Option String → String
  | none => "undefined"
  | some p => p

/-- The synchronous prefix of the `openrelik.startOpenRelik` command, up to
(and not including) the `await waitForOpenRelik(...)`: resolve the workspace
root (warn and return if there is none), create and show an "OpenRelik"
terminal, send the clone-and-start or start command depending on whether the
`openrelik-dev` folder exists, announce the start, and set the global status
to `unknown`. The probes of the subsequent wait are separate events. -/
def startBegin (ws : Option String) (devExists : Bool) (s : ExtState) :
    ExtState :=
  match ws with
  | none => notify (Notification.warning "No workspace folder is open.") s
  | some workspacePath =>
      let devPath := workspacePath ++ "/openrelik-dev"
      let startScript := devPath ++ "/poststart.sh"
      let s := notify (Notification.info s!"Workspace root: {workspacePath}") s
      let ts := createTerminal "OpenRelik" s
      let terminal := ts.fst
      let s := ts.snd
      let s :=
        if devExists then
          sendText terminal s!"cd {devPath}; {startScript}"
            (notify (Notification.warning
              "openrelik-dev folder found, running start script.") s)
        else
          sendText terminal
            s!"git clone https://github.com/daschwanden/openrelik-dev.git; cd {devPath}; {startScript}"
            (notify (Notification.warning
              "openrelik-dev folder not found, cloning the repo, then run start script.") s)
      let s := notify (Notification.info "Starting OpenRelik...") s
      { s with dockerComposeStatus := DockerComposeStatus.unknown }

/-- The `openrelik.stopOpenRelik` command. The source guards on
`if (devPath)` where `devPath` is the template string
`` `${workspacePath}/openrelik-dev` ``; that string is non-empty even when
`getWorkspaceRoot()` returns `undefined`, so the guard always takes the
first branch and the `else` warning is dead code. The command reuses the
live "OpenRelik" terminal or creates a "Stop OpenRelik" one, sends the
compose-down command, sets the status to `stopped`, disposes every worker
terminal and clears `workerTerminals`. -/
def stopOpenRelik (ws : Option String) (s : ExtState) : ExtState :=
  let workspacePath := wsString ws
  let devPath := workspacePath ++ "/openrelik-dev"
  let s := notify (Notification.info s!"Workspace root: {workspacePath}") s
  let ts :=
    match getTerminal "OpenRelik" s with
    | some t => (t, s)
    | none => createTerminal "Stop OpenRelik" s
  let terminal := ts.fst
  let s := ts.snd
  let s := sendText terminal s!"cd {devPath}/openrelik; docker compose down; exit" s
  let s := notify (Notification.info "Stopping OpenRelik...") s
  let s := { s with dockerComposeStatus := DockerComposeStatus.stopped }
  let s := disposeAll s.workerTerminals s
  { s with workerTerminals := [] }

/-- The `openrelik.newWorker` command. The guard is
`dockerComposeStatus === 'running' && devPath`, and `devPath` — again a
template string — is always truthy, so only the status matters. When not
running, an error notification is shown and nothing changes. When running,
the user is prompted; a cancelled or empty input is a no-op apart from the
"Input cancelled." message. Otherwise all existing worker terminals are
disposed and the array cleared, a fresh `Worker: <input>` terminal is
created and shown, the composed provisioning command is sent, a success
message is shown, and the new terminal is pushed onto `workerTerminals`.
`scriptExists` records whether `newWorker.sh` is present on disk; the
source never consults it. -/
def newWorker (ws : Option String) (scriptExists : Bool)
    (input : Option String) (s : ExtState) : ExtState :=
  let workspacePath := wsString ws
  let devPath := workspacePath ++ "/openrelik-dev"
  let newWorkerScript := devPath ++ "/newWorker.sh"
  if s.dockerComposeStatus = DockerComposeStatus.running then
    if inputTruthy input then
      let userInput := input.getD ""
      let s := disposeAll s.workerTerminals s
      let s := { s with workerTerminals := [] }
      let ts := createTerminal s!"Worker: {userInput}" s
      let terminal := ts.fst
      let s := ts.snd
      let s := sendText terminal
        s!"cd {devPath}; {newWorkerScript} {userInput}; cd {devPath}/openrelik; docker compose watch" s
      let s := notify (Notification.info "Created new worker!") s
      { s with workerTerminals := s.workerTerminals ++ [terminal] }
    else
      notify (Notification.info "Input cancelled.") s
  else
    notify (Notification.error "OpenRelik must be running to create new worker") s

/-- The externally triggered events of the lifecycle core: the synchronous
part of a start command, one health probe of an availability wait (the probe
outcome abstracts the HTTP exchange), a stop command, and a new-worker
command (with the filesystem fact about `newWorker.sh` and the prompt
outcome). -/
inductive Event
  | startCmd (ws : Option String) (devExists : Bool)
  | probe (outcome : Except FetchError Response)
  | stopCmd (ws : Option String)
  | newWorkerCmd (ws : Option String) (scriptExists : Bool) (input : Option String)

/-- One step of the lifecycle state machine. A probe overwrites the global
status with the status assigned by `checkHealth` and counts one probe. -/
def step (s : ExtState) : Event → ExtState
  | Event.startCmd ws devExists => startBegin ws devExists s
  | Event.probe o =>
      { s with
        dockerComposeStatus := (checkHealth o).snd,
        probes := s.probes + 1 }
  | Event.stopCmd ws => stopOpenRelik ws s
  | Event.newWorkerCmd ws scriptExists input => newWorker ws scriptExists input s

/-- The state reached from process start by a sequence of events. -/
def runTrace (tr : List Event) : ExtState :=
  tr.foldl step initState

theorem disposeAll_dockerComposeStatus :
    ∀ (l : List Terminal) (s : ExtState),
      (disposeAll l s).dockerComposeStatus = s.dockerComposeStatus := by
  intro l
  induction l with
  | nil => intro s; rfl
  | cons t ts ih => intro s; exact ih (disposeTerminal t s)

theorem disposeAll_probes :
    ∀ (l : List Terminal) (s : ExtState), (disposeAll l s).probes = s.probes := by
  intro l
  induction l with
  | nil => intro s; rfl
  | cons t ts ih => intro s; exact ih (disposeTerminal t s)

theorem disposeAll_workerTerminals :
    ∀ (l : List Terminal) (s : ExtState),
      (disposeAll l s).workerTerminals = s.workerTerminals := by
  intro l
  induction l with
  | nil => intro s; rfl
  | cons t ts ih => intro s; exact ih (disposeTerminal t s)

theorem disposeAll_sent :
    ∀ (l : List Terminal) (s : ExtState), (disposeAll l s).sent = s.sent := by
  intro l
  induction l with
  | nil => intro s; rfl
  | cons t ts ih => intro s; exact ih (disposeTerminal t s)

theorem disposeAll_notifs :
    ∀ (l : List Terminal) (s : ExtState), (disposeAll l s).notifs = s.notifs := by
  intro l
  induction l with
  | nil => intro s; rfl
  | cons t ts ih => intro s; exact ih (disposeTerminal t s)

theorem disposeAll_nextId :
    ∀ (l : List Terminal) (s : ExtState), (disposeAll l s).nextId = s.nextId := by
  intro l
  induction l with
  | nil => intro s; rfl
  | cons t ts ih => intro s; exact ih (disposeTerminal t s)

theorem disposeAll_disposed :
    ∀ (l : List Terminal) (s : ExtState),
      (disposeAll l s).disposed = s.disposed ++ l.map Terminal.id := by
  intro l
  induction l with
  | nil => intro s; simp [disposeAll]
  | cons t ts ih =>
      intro s
      have h : disposeAll (t :: ts) s = disposeAll ts (disposeTerminal t s) := rfl
      rw [h, ih (disposeTerminal t s)]
      simp [disposeTerminal]

/-- C4: a completed `stopOpenRelik` disposes every terminal that was in
`workerTerminals`, leaves `workerTerminals` empty, sets the status to
`stopped` unconditionally, and performs no health probe — for any starting
state, whatever the number of workers. -/
theorem stopOpenRelik_clears_workers (ws : Option String) (s : ExtState) :
    (stopOpenRelik ws s).workerTerminals = []
    ∧ (∀ t, t ∈ s.workerTerminals → t.id ∈ (stopOpenRelik ws s).disposed)
    ∧ (stopOpenRelik ws s).dockerComposeStatus = DockerComposeStatus.stopped
    ∧ (stopOpenRelik ws s).probes = s.probes := by
  rcases hgt : getTerminal "OpenRelik"
      (notify (Notification.info s!"Workspace root: {wsString ws}") s) with _ | t
  · refine ⟨rfl, ?_, ?_, ?_⟩
    · intro t ht
      simp only [stopOpenRelik, hgt]
      simp only [notify, sendText, createTerminal, disposeAll_disposed]
      simp [List.mem_append]
      exact Or.inr ⟨t, ht, rfl⟩
    · simp only [stopOpenRelik, hgt]
      simp only [notify, sendText, createTerminal, disposeAll_dockerComposeStatus]
    · simp only [stopOpenRelik, hgt]
      simp only [notify, sendText, createTerminal, disposeAll_probes]
  · refine ⟨rfl, ?_, ?_, ?_⟩
    · intro u hu
      simp only [stopOpenRelik, hgt]
      simp only [notify, sendText, disposeAll_disposed]
      simp [List.mem_append]
      exact Or.inr ⟨u, hu, rfl⟩
    · simp only [stopOpenRelik, hgt]
      simp only [notify, sendText, disposeAll_dockerComposeStatus]
    · simp only [stopOpenRelik, hgt]
      simp only [notify, sendText, disposeAll_probes]

/-- Instance of `stopOpenRelik_clears_workers`: a running state with two
worker terminals is stopped, both workers are disposed and the set is left
empty. -/
theorem stopOpenRelik_clears_workers_witness :
    (stopOpenRelik (some "/home/user/ws")
      ⟨DockerComposeStatus.running, [⟨1, "Worker: a"⟩, ⟨2, "Worker: b"⟩],
        [⟨1, "Worker: a"⟩, ⟨2, "Worker: b"⟩], 3, [], [], [], 5⟩).workerTerminals = []
    ∧ (1 : Nat) ∈ (stopOpenRelik (some "/home/user/ws")
      ⟨DockerComposeStatus.running, [⟨1, "Worker: a"⟩, ⟨2, "Worker: b"⟩],
        [⟨1, "Worker: a"⟩, ⟨2, "Worker: b"⟩], 3, [], [], [], 5⟩).disposed
    ∧ (stopOpenRelik (some "/home/user/ws")
      ⟨DockerComposeStatus.running, [⟨1, "Worker: a"⟩, ⟨2, "Worker: b"⟩],
        [⟨1, "Worker: a"⟩, ⟨2, "Worker: b"⟩], 3, [], [], [], 5⟩).dockerComposeStatus
        = DockerComposeStatus.stopped := by
  have h := stopOpenRelik_clears_workers (some "/home/user/ws")
    ⟨DockerComposeStatus.running, [⟨1, "Worker: a"⟩, ⟨2, "Worker: b"⟩],
      [⟨1, "Worker: a"⟩, ⟨2, "Worker: b"⟩], 3, [], [], [], 5⟩
  exact ⟨h.1, h.2.1 ⟨1, "Worker: a"⟩ (by simp), h.2.2.1⟩

/-- C5: while the status is not `running` (`stopped` or `unknown`),
`newWorker` only reports the platform-not-running error to the user — the
resulting state is the old state with that error notification appended, so
`workerTerminals` is unchanged, no terminal is created, nothing is sent,
and no other state changes. -/
theorem newWorker_rejected_when_not_running (ws : Option String)
    (scriptExists : Bool) (input : Option String) (s : ExtState)
    (h : s.dockerComposeStatus ≠ DockerComposeStatus.running) :
    newWorker ws scriptExists input s =
      { s with notifs := s.notifs ++
          [Notification.error "OpenRelik must be running to create new worker"] } := by
  simp only [newWorker, if_neg h, notify]

/-- Instance of `newWorker_rejected_when_not_running` at the initial
(stopped) state. -/
theorem newWorker_rejected_when_not_running_witness :
    newWorker (some "/home/user/ws") true (some "w1") initState =
      { initState with notifs :=
          [Notification.error "OpenRelik must be running to create new worker"] } := by
  rw [newWorker_rejected_when_not_running (some "/home/user/ws") true (some "w1")
    initState (by decide)]
  rfl

/-- A state in which the platform has been confirmed running and no worker
exists yet. -/
def runningInit : ExtState :=
  ⟨DockerComposeStatus.running, [], [], 0, [], [], [], 0⟩

/-- C6 counterexample: invoking `newWorker` while the provisioning script is
absent (`scriptExists = false`) does not fail with any missing-script error:
a worker terminal is created and tracked, the composed command is sent, and
the success message — not an error — is shown. -/
theorem newWorker_missing_script_cex :
    (newWorker (some "/home/user/ws") false (some "w1")
      runningInit).workerTerminals.length = 1
    ∧ (newWorker (some "/home/user/ws") false (some "w1")
      runningInit).sent.length = 1
    ∧ (newWorker (some "/home/user/ws") false (some "w1")
      runningInit).notifs = [Notification.info "Created new worker!"] :=
  ⟨rfl, rfl, rfl⟩

/-- C6 amended: `newWorker` never checks that the provisioning script
exists — its result is independent of `scriptExists` — and even with the
script absent a successful invocation (running status, non-empty input)
disposes prior workers, creates one new worker terminal, and sends the
composed command referencing the script. -/
theorem newWorker_ignores_script_existence (ws : Option String)
    (input : Option String) (s : ExtState) (ex1 ex2 : Bool) :
    newWorker ws ex1 input s = newWorker ws ex2 input s
    ∧ (s.dockerComposeStatus = DockerComposeStatus.running →
        inputTruthy input = true →
        (newWorker ws false input s).workerTerminals.length = 1
        ∧ (newWorker ws false input s).sent.length = s.sent.length + 1) := by
  refine ⟨rfl, fun h1 h2 => ⟨?_, ?_⟩⟩
  · simp [newWorker, h1, h2, notify, sendText, createTerminal]
  · simp [newWorker, h1, h2, notify, sendText, createTerminal, disposeAll_sent]

/-- Instance of `newWorker_ignores_script_existence` at a running state with
the script absent. -/
theorem newWorker_ignores_script_existence_witness :
    (newWorker (some "/home/user/ws") false (some "w1")
      runningInit).workerTerminals.length = 1
    ∧ (newWorker (some "/home/user/ws") false (some "w1")
      runningInit).sent.length = runningInit.sent.length + 1 :=
  (newWorker_ignores_script_existence (some "/home/user/ws") (some "w1")
    runningInit true false).2 rfl rfl

/-- A start request that actually initiates the startup path: a start
command with a resolvable workspace root. A start invoked with no workspace
open warns and returns before touching the status or issuing any command,
so it does not begin a start. -/
def isStartRequest : Event → Bool
  | Event.startCmd (some _) _ => true
  | _ => false

/-- A probe event whose outcome `checkHealth` classifies as healthy. -/
def isHealthyProbe : Event → Bool
  | Event.probe o => (checkHealth o).fst
  | _ => false

/-- The events after the most recent start request of a trace (the whole
trace when no start request occurs in it). -/
def sinceLastStart (tr : List Event) : List Event :=
  (tr.reverse.takeWhile (fun e => !(isStartRequest e))).reverse

theorem startBegin_workerTerminals (ws : Option String) (devExists : Bool)
    (s : ExtState) :
    (startBegin ws devExists s).workerTerminals = s.workerTerminals := by
  cases ws with
  | none => rfl
  | some p => cases devExists <;> rfl

theorem startBegin_status_some (p : String) (devExists : Bool) (s : ExtState) :
    (startBegin (some p) devExists s).dockerComposeStatus
      = DockerComposeStatus.unknown := by
  cases devExists <;> rfl

theorem stopOpenRelik_status_stopped (ws : Option String) (s : ExtState) :
    (stopOpenRelik ws s).dockerComposeStatus = DockerComposeStatus.stopped := by
  rcases hgt : getTerminal "OpenRelik"
      (notify (Notification.info s!"Workspace root: {wsString ws}") s) with _ | t
  · simp only [stopOpenRelik, hgt]
    simp only [notify, sendText, createTerminal, disposeAll_dockerComposeStatus]
  · simp only [stopOpenRelik, hgt]
    simp only [notify, sendText, disposeAll_dockerComposeStatus]

theorem newWorker_status_preserved (ws : Option String) (ex : Bool)
    (input : Option String) (s : ExtState) :
    (newWorker ws ex input s).dockerComposeStatus = s.dockerComposeStatus := by
  by_cases h1 : s.dockerComposeStatus = DockerComposeStatus.running
  · by_cases h2 : inputTruthy input = true
    · simp [newWorker, h1, h2, notify, sendText, createTerminal,
        disposeAll_dockerComposeStatus]
    · simp [newWorker, h1, h2, notify]
  · simp [newWorker, h1, notify]

theorem newWorker_workers_cases (ws : Option String) (ex : Bool)
    (input : Option String) (s : ExtState) :
    (newWorker ws ex input s).workerTerminals = s.workerTerminals
    ∨ (newWorker ws ex input s).workerTerminals.length = 1 := by
  by_cases h1 : s.dockerComposeStatus = DockerComposeStatus.running
  · by_cases h2 : inputTruthy input = true
    · refine Or.inr ?_
      simp [newWorker, h1, h2, notify, sendText, createTerminal]
    · refine Or.inl ?_
      simp [newWorker, h1, h2, notify]
  · refine Or.inl ?_
    simp [newWorker, h1, notify]

/-- Only a healthy probe can make the status `running`: every other step
either preserves an already-running status or leaves it non-running. -/
theorem step_running_source (s : ExtState) (e : Event)
    (h : (step s e).dockerComposeStatus = DockerComposeStatus.running) :
    s.dockerComposeStatus = DockerComposeStatus.running
    ∨ isHealthyProbe e = true := by
  cases e with
  | startCmd ws dev =>
      cases ws with
      | none => exact Or.inl (by simpa [step, startBegin, notify] using h)
      | some p =>
          exact absurd h (by simp [step, startBegin_status_some])
  | probe o =>
      cases hf : (checkHealth o).fst with
      | false =>
          have hu := checkHealth_fst_false o hf
          simp [step, hu] at h
      | true => exact Or.inr (by simpa [isHealthyProbe] using hf)
  | stopCmd ws =>
      exact absurd h (by simp [step, stopOpenRelik_status_stopped])
  | newWorkerCmd ws ex input =>
      refine Or.inl ?_
      have hp := newWorker_status_preserved ws ex input s
      simp only [step] at h
      rw [hp] at h
      exact h

theorem runTrace_append (tr : List Event) (e : Event) :
    runTrace (tr ++ [e]) = step (runTrace tr) e := by
  simp [runTrace, List.foldl_append]

theorem sinceLastStart_append (tr : List Event) (e : Event) :
    sinceLastStart (tr ++ [e]) =
      if isStartRequest e then [] else sinceLastStart tr ++ [e] := by
  by_cases he : isStartRequest e
  · simp [sinceLastStart, List.reverse_append, he, List.takeWhile_cons]
  · simp [sinceLastStart, List.reverse_append, he, List.takeWhile_cons]

/-- A trace that starts the platform, observes a healthy probe, creates a
worker, and then starts again: the restart sets the status back to `unknown`
without clearing `workerTerminals`. -/
def restartTrace : List Event :=
  [Event.startCmd (some "/home/user/ws") true,
   Event.probe (Except.ok ⟨200⟩),
   Event.newWorkerCmd (some "/home/user/ws") true (some "w1"),
   Event.startCmd (some "/home/user/ws") true]

/-- C7 counterexample: a reachable state (start, healthy probe, add worker,
start again) in which `workerTerminals` is non-empty while the status is
`unknown`, not `running` — so WorkerSet non-emptiness does not imply a
Running status. -/
theorem workerSet_nonempty_not_running_cex :
    (runTrace restartTrace).workerTerminals.length = 1
    ∧ (runTrace restartTrace).dockerComposeStatus = DockerComposeStatus.unknown :=
  ⟨rfl, rfl⟩

/-- C7 amended: worker creation is rejected in every status other than
`running`, so `workerTerminals` can only grow while the status is `running`;
but the set may remain non-empty after the status leaves `running` (a
restart sets the status to `unknown` without clearing it). -/
theorem workerSet_grows_only_when_running (s : ExtState) (e : Event)
    (h : s.workerTerminals.length < (step s e).workerTerminals.length) :
    s.dockerComposeStatus = DockerComposeStatus.running := by
  cases e with
  | startCmd ws dev =>
      rw [step, startBegin_workerTerminals] at h
      exact absurd h (lt_irrefl _)
  | probe o => exact absurd h (lt_irrefl _)
  | stopCmd ws =>
      have hz : (stopOpenRelik ws s).workerTerminals = [] := rfl
      rw [step, hz] at h
      simp at h
  | newWorkerCmd ws ex input =>
      by_cases h1 : s.dockerComposeStatus = DockerComposeStatus.running
      · exact h1
      · exfalso
        have hkeep : (newWorker ws ex input s).workerTerminals
            = s.workerTerminals := by
          simp [newWorker, h1, notify]
        rw [step, hkeep] at h
        exact absurd h (lt_irrefl _)

/-- Instance of `workerSet_grows_only_when_running`: a successful worker
creation grows the set, and indeed departs from a running state. -/
theorem workerSet_grows_only_when_running_witness :
    runningInit.workerTerminals.length <
      (step runningInit (Event.newWorkerCmd (some "/home/user/ws") true
        (some "w1"))).workerTerminals.length
    ∧ runningInit.dockerComposeStatus = DockerComposeStatus.running :=
  ⟨by decide,
   workerSet_grows_only_when_running runningInit
     (Event.newWorkerCmd (some "/home/user/ws") true (some "w1")) (by decide)⟩

/-- C8, evaluated at the failing input: invoking `stopOpenRelik` with no
resolvable workspace root does not fail — the always-truthy `if (devPath)`
guard (its `else` branch is dead code) lets the command proceed, reporting
the root as the string `"undefined"`, sending the shutdown command into the
literal `undefined/openrelik-dev` path, and setting the status to `stopped`,
instead of failing with a no-workspace error and leaving the state
unchanged. -/
theorem stopOpenRelik_proceeds_without_workspace :
    (stopOpenRelik none runningInit).dockerComposeStatus
      = DockerComposeStatus.stopped
    ∧ (stopOpenRelik none runningInit).sent =
        [(0, "cd undefined/openrelik-dev/openrelik; docker compose down; exit")]
    ∧ (stopOpenRelik none runningInit).notifs =
        [Notification.info "Workspace root: undefined",
         Notification.info "Stopping OpenRelik..."] :=
  ⟨rfl, rfl, rfl⟩

/-- C9: the status is `running` only if a probe has observed a healthy
response since the most recent start request: any trace ending with status
`running` contains a healthy probe after its last (workspace-resolving)
start; no step other than a healthy probe can establish `running`; and a
start with a resolvable workspace sets the status to `unknown` (before any
probing begins). -/
theorem status_running_requires_probe :
    (∀ tr : List Event,
      (runTrace tr).dockerComposeStatus = DockerComposeStatus.running →
      (sinceLastStart tr).any isHealthyProbe = true)
    ∧ (∀ (s : ExtState) (e : Event),
        (step s e).dockerComposeStatus = DockerComposeStatus.running →
        s.dockerComposeStatus = DockerComposeStatus.running
          ∨ isHealthyProbe e = true)
    ∧ (∀ (s : ExtState) (p : String) (devExists : Bool),
        (step s (Event.startCmd (some p) devExists)).dockerComposeStatus
          = DockerComposeStatus.unknown) := by
  refine ⟨?_, fun s e => step_running_source s e,
    fun s p devExists => by simp [step, startBegin_status_some]⟩
  intro tr
  induction tr using List.reverseRecOn with
  | nil => intro h; simp [runTrace, initState] at h
  | append_singleton tr e ih =>
      intro h
      rw [runTrace_append] at h
      rw [sinceLastStart_append]
      cases e with
      | startCmd ws dev =>
          cases ws with
          | none =>
              have hrun : (runTrace tr).dockerComposeStatus
                  = DockerComposeStatus.running := by
                simpa [step, startBegin, notify] using h
              simp [isStartRequest, List.any_append, ih hrun]
          | some p =>
              exact absurd h (by simp [step, startBegin_status_some])
      | probe o =>
          cases hf : (checkHealth o).fst with
          | false =>
              have hu := checkHealth_fst_false o hf
              simp [step, hu] at h
          | true =>
              simp [isStartRequest, isHealthyProbe, List.any_append, hf]
      | stopCmd ws =>
          exact absurd h (by simp [step, stopOpenRelik_status_stopped])
      | newWorkerCmd ws ex input =>
          have hrun : (runTrace tr).dockerComposeStatus
              = DockerComposeStatus.running := by
            have hp := newWorker_status_preserved ws ex input (runTrace tr)
            simp only [step] at h
            rw [hp] at h
            exact h
          simp [isStartRequest, List.any_append, ih hrun]

/-- Instance of `status_running_requires_probe`: after a start followed by a
healthy probe the status is `running` and the events since that start
indeed contain a healthy probe. -/
theorem status_running_requires_probe_witness :
    (runTrace [Event.startCmd (some "/home/user/ws") true,
      Event.probe (Except.ok ⟨200⟩)]).dockerComposeStatus
      = DockerComposeStatus.running
    ∧ (sinceLastStart [Event.startCmd (some "/home/user/ws") true,
      Event.probe (Except.ok ⟨200⟩)]).any isHealthyProbe = true :=
  ⟨rfl, status_running_requires_probe.1
    [Event.startCmd (some "/home/user/ws") true,
     Event.probe (Except.ok ⟨200⟩)] rfl⟩

/-- C10: in every reachable state `workerTerminals` holds at most one
terminal; a successful `newWorker` (running status, non-empty input) leaves
exactly one worker terminal and has disposed every previously tracked one;
and `stopOpenRelik` always empties the set. -/
theorem workerSet_at_most_one :
    (∀ tr : List Event, (runTrace tr).workerTerminals.length ≤ 1)
    ∧ (∀ (ws : Option String) (ex : Bool) (u : String) (s : ExtState),
        s.dockerComposeStatus = DockerComposeStatus.running → u ≠ "" →
        (newWorker ws ex (some u) s).workerTerminals.length = 1
        ∧ ∀ t, t ∈ s.workerTerminals →
            t.id ∈ (newWorker ws ex (some u) s).disposed)
    ∧ (∀ (ws : Option String) (s : ExtState),
        (stopOpenRelik ws s).workerTerminals = []) := by
  refine ⟨?_, ?_, fun ws s => rfl⟩
  · intro tr
    induction tr using List.reverseRecOn with
    | nil => simp [runTrace, initState]
    | append_singleton tr e ih =>
        rw [runTrace_append]
        cases e with
        | startCmd ws dev =>
            rw [step, startBegin_workerTerminals]
            exact ih
        | probe o => exact ih
        | stopCmd ws =>
            have hz : (stopOpenRelik ws (runTrace tr)).workerTerminals = [] := rfl
            rw [step, hz]
            simp
        | newWorkerCmd ws ex input =>
            rcases newWorker_workers_cases ws ex input (runTrace tr) with hk | h1
            · rw [step, hk]; exact ih
            · rw [step, h1]
  · intro ws ex u s h1 hu
    have h2 : inputTruthy (some u) = true := by simp [inputTruthy, hu]
    constructor
    · simp [newWorker, h1, h2, notify, sendText, createTerminal]
    · intro t ht
      simp only [newWorker, h1, if_pos, h2, if_true]
      simp only [notify, sendText, createTerminal, disposeAll_disposed]
      simp [List.mem_append]
      exact Or.inr ⟨t, ht, rfl⟩

/-- Instance of `workerSet_at_most_one`: creating a second worker disposes
the first and leaves exactly one tracked worker terminal. -/
theorem workerSet_at_most_one_witness :
    (newWorker (some "/home/user/ws") true (some "w2")
      ⟨DockerComposeStatus.running, [⟨7, "Worker: w1"⟩], [⟨7, "Worker: w1"⟩],
        8, [], [], [], 0⟩).workerTerminals.length = 1
    ∧ (7 : Nat) ∈ (newWorker (some "/home/user/ws") true (some "w2")
      ⟨DockerComposeStatus.running, [⟨7, "Worker: w1"⟩], [⟨7, "Worker: w1"⟩],
        8, [], [], [], 0⟩).disposed := by
  have h := workerSet_at_most_one.2.1 (some "/home/user/ws") true "w2"
    ⟨DockerComposeStatus.running, [⟨7, "Worker: w1"⟩], [⟨7, "Worker: w1"⟩],
      8, [], [], [], 0⟩ rfl (by decide)
  exact ⟨h.1, h.2 ⟨7, "Worker: w1"⟩ (by simp)⟩

end OpenRelik
